import Mathlib

/-!
Shallow embedding of the payment/transaction components of titan-vps:
`node/transaction/manager.go` (chain watcher, event subscriber, ledger
client operations, outbound Mint/Transfer executor) and
`lib/aliyun/aliyun.go` (instance provisioning request builders).

External I/O (eth client dialing, contract bindings, RPC lookups) is
modelled by an environment record of `Except`-valued results; each source
function becomes a pure Lean function over that environment which returns
its Go result together with the list of events published on the bus and
the list of contract calls it submitted, so that the theorems can speak
about what was published and what was submitted.

Addresses, hashes and CIDs are modelled by their string renderings (the
Go code only ever publishes `.Hex()` / `.String()` forms). `*big.Int` is
modelled by `Int`.
-/

namespace TitanVps

/-- Go `math/big` `Int.Int64()`: the two's-complement reinterpretation of
the low 64 bits of the value (the behaviour of the Go implementation; the
documentation calls the out-of-range case undefined). -/
def goInt64 (n : Int) : Int :=
  let r := n % (2 ^ 64 : Int)
  if r < 2 ^ 63 then r else r - 2 ^ 64

/-- Fold a list of decimal digit characters into a number; `none` if some
character is not a digit. -/
def decDigits (cs : List Char) : Option Nat :=
  cs.foldl
    (fun acc c =>
      match acc with
      | none => none
      | some n => if c.isDigit then some (10 * n + (c.toNat - 48)) else none)
    (some 0)

/-- Go `big.Int.SetString(s, 10)` as used in `Mint`/`Transfer`: parse an
optionally signed base-10 numeral. The Go code ignores the failure flag
(the receiver is undefined on failure); the claims only exercise valid
numerals, we return `0` on failure. -/
def goSetString10 (s : String) : Int :=
  match s.data with
  | [] => 0
  | c :: rest =>
    let signDigits : Bool × List Char :=
      if c = Char.ofNat 45 then (true, rest)
      else if c = Char.ofNat 43 then (false, rest)
      else (false, c :: rest)
    match signDigits.2 with
    | [] => 0
    | ds =>
      match decDigits ds with
      | none => 0
      | some n => if signDigits.1 then -(n : Int) else (n : Int)

/-- `fvm.AbiTransfer` as consumed by `watchTransactions`: `From`, `To`
(addresses, modelled by their hex rendering), `Value *big.Int`, and the
raw log's `TxHash`, `BlockNumber`, `Removed`. -/
structure AbiTransfer where
  fromAddr : String
  toAddr : String
  value : Int
  rawTxHash : String
  rawBlockNumber : Int
  rawRemoved : Bool
deriving Repr, DecidableEq

/-- The transfer-watch event literal constructed in `manager.go`
(`types.FvmTransferWatch{ID, From, To, Value}` with `Value` an `int64`).
Note the declaration in `src/api/types/basis.go` of this snapshot instead
has fields `TxHash`/`From`/`To`/`Value` all of type `string`; we embed the
shape the manager code actually builds. -/
structure FvmTransferWatch where
  id : String
  fromAddr : String
  toAddr : String
  value : Int
deriving Repr, DecidableEq

/-- `types.FvmTransferWatch` as declared in `src/api/types/basis.go`:
all four fields are strings (the `Value` is a decimal string). Kept for
comparison with the event the manager constructs. -/
structure FvmTransferWatchDecl where
  txHash : String
  fromAddr : String
  toAddr : String
  value : String
deriving Repr, DecidableEq

/-- What the `case tr := <-sink` arm of `watchTransactions` publishes on
the transfer-watch topic for one inbound raw transfer: nothing when
`tr.Raw.Removed`, otherwise the normalized event with
`ID = tr.Raw.TxHash.Hex()`, `From/To` hex, `Value = tr.Value.Int64()`. -/
def watchPublish (tr : AbiTransfer) : List FvmTransferWatch :=
  if tr.rawRemoved then []
  else [⟨tr.rawTxHash, tr.fromAddr, tr.toAddr, goInt64 tr.value⟩]

/-- One iteration input of the `watchTransactions` event loop: either the
subscription error channel fires (carrying the optional error, together
with the result of the `WatchTransfer` resubscription call the code makes
when the error is non-nil), or the sink delivers a raw transfer. -/
inductive LoopEvent where
  | subErr : Option String → Except String Unit → LoopEvent
  | transfer : AbiTransfer → LoopEvent
deriving Repr

/-- A loop event is fatal when the error channel delivered a non-nil
error and the resubscription call itself failed: `watchTransactions` then
returns `xerrors.Errorf("Transfer err:%s", ...)`. -/
def fatalEvent : LoopEvent → Bool
  | .subErr (some _) (.error _) => true
  | _ => false

/-- The `for { select { ... } }` loop of `watchTransactions`, run over a
finite trace of loop inputs: returns the list of events published on the
transfer-watch topic and `some errMsg` if the loop returned (terminated)
while consuming the trace, `none` if it is still running afterwards. -/
def watchLoop : List LoopEvent → List FvmTransferWatch × Option String
  | [] => ([], none)
  | .subErr none _ :: rest => watchLoop rest
  | .subErr (some _) (.ok _) :: rest => watchLoop rest
  | .subErr (some _) (.error s) :: _ => ([], some ("Transfer err:" ++ s))
  | .transfer tr :: rest =>
    let r := watchLoop rest
    (watchPublish tr ++ r.1, r.2)

/-- The signing context `bind.TransactOpts` carries into the contract
call: the chain id its `Signer` closure signs with
(`LatestSignerForChainID(chainID)`) and the `From` address. -/
structure TransactCtx where
  chainID : Int
  fromAddr : String
deriving Repr, DecidableEq

/-- A contract call submitted through the token binding (`myAbi.Mint` /
`myAbi.Transfer`): the signing context, the destination address and the
token amount. -/
structure ContractCall where
  ctx : TransactCtx
  toAddr : String
  amount : Int
deriving Repr, DecidableEq

/-- A transaction accepted by the node; `hashHex` is `tx.Hash().Hex()`. -/
structure SubmittedTx where
  hashHex : String
deriving Repr, DecidableEq

/-- The `message` looked up by `ChainGetMessage` (fields used by
`CheckMessage`: `From`, `To`, `Value *big.Int`). -/
structure ChainMsg where
  fromAddr : String
  toAddr : String
  value : Int
deriving Repr, DecidableEq

/-- The `lookup` returned by `StateSearchMsg` (fields used by
`CheckMessage`: `Height`, `Receipt.ExitCode`, `Receipt.GasUsed`). -/
structure MsgLookup where
  height : Int
  exitCode : Int
  gasUsed : Int
deriving Repr, DecidableEq

/-- Environment of external-call results for the Manager's operations.
Each field is the outcome of one kind of remote call made by
`manager.go`; the embedded functions consult them in source order and
never retry. -/
structure ManagerEnv where
  /-- `ethclient.Dial` -/
  dial : Except String Unit
  /-- `fvm.NewAbi(tokenAddress, client)` -/
  newAbi : Except String Unit
  /-- `crypto.HexToECDSA(m.cfg.PrivateKeyStr)` -/
  hexToECDSA : Except String Unit
  /-- whether `privateKey.Public().(*ecdsa.PublicKey)` succeeds -/
  pubkeyCast : Bool
  /-- `crypto.PubkeyToAddress(*publicKeyECDSA)` -/
  fromAddress : String
  /-- `client.NetworkID(context.Background())` -/
  networkID : Except String Int
  /-- `myAbi.Mint(opt, to, amount)`: node's answer to the submitted call -/
  abiMint : ContractCall → Except String SubmittedTx
  /-- `myAbi.Transfer(to, toAddress, amount)` -/
  abiTransfer : ContractCall → Except String SubmittedTx
  /-- `myAbi.BalanceOf(nil, addr)` -/
  balanceOf : String → Except String Int
  /-- `fvm.ChainHead(&msg, addr)`: the tipset height -/
  chainHead : Except String Int
  /-- `fvm.EthGetMessageCidByTransactionHash(&cid, tx, addr)` -/
  ethGetMessageCid : String → Except String String
  /-- `fvm.ChainGetMessage(&msg, cid, addr)` -/
  chainGetMessage : String → Except String ChainMsg
  /-- `fvm.StateSearchMsg(&info, cid, addr)` -/
  stateSearchMsg : String → Except String MsgLookup

/-- `Manager.Mint(toAddr, valueStr)`: dial, build the ABI binding, parse
the key, derive the from-address, parse the amount in base 10, fetch the
chain id from the client, sign-and-submit via `myAbi.Mint`. Returns the
Go result (`txHash.Hex()` or the wrapped error) together with the list of
contract calls submitted to the node. -/
def Mint (env : ManagerEnv) (toAddr valueStr : String) :
    Except String String × List ContractCall :=
  match env.dial with
  | .error e => (.error ("Dial err:" ++ e), [])
  | .ok _ =>
    match env.newAbi with
    | .error e => (.error ("NewAbi err:" ++ e), [])
    | .ok _ =>
      match env.hexToECDSA with
      | .error e => (.error ("HexToECDSA err:" ++ e), [])
      | .ok _ =>
        if !env.pubkeyCast then (.error "publicKey err:", [])
        else
          let amount := goSetString10 valueStr
          match env.networkID with
          | .error e => (.error ("NetworkID err:" ++ e), [])
          | .ok chainID =>
            let call : ContractCall :=
              ⟨⟨chainID, env.fromAddress⟩, toAddr, amount⟩
            match env.abiMint call with
            | .error e => (.error ("Mint err:" ++ e), [call])
            | .ok tx => (.ok tx.hashHex, [call])

/-- `Manager.Transfer(toAddr, valueStr)`: same shape as `Mint` but the
key is parsed before the ABI binding is built and the submission goes
through `myAbi.Transfer`. -/
def Transfer (env : ManagerEnv) (toAddr valueStr : String) :
    Except String String × List ContractCall :=
  match env.dial with
  | .error e => (.error ("Dial err:" ++ e), [])
  | .ok _ =>
    match env.hexToECDSA with
    | .error e => (.error ("HexToECDSA err:" ++ e), [])
    | .ok _ =>
      if !env.pubkeyCast then (.error "publicKey err:", [])
      else
        match env.newAbi with
        | .error e => (.error ("NewAbi err:" ++ e), [])
        | .ok _ =>
          let amount := goSetString10 valueStr
          match env.networkID with
          | .error e => (.error ("NetworkID err:" ++ e), [])
          | .ok chainID =>
            let call : ContractCall :=
              ⟨⟨chainID, env.fromAddress⟩, toAddr, amount⟩
            match env.abiTransfer call with
            | .error e => (.error ("Transfer err:" ++ e), [call])
            | .ok tx => (.ok tx.hashHex, [call])

/-- `Manager.GetHeight()`: on a `ChainHead` failure it logs and returns
`0`; its signature carries no error at all. -/
def GetHeight (env : ManagerEnv) : Int :=
  match env.chainHead with
  | .error _ => 0
  | .ok h => h

/-- `Manager.GetBalance(addr)`: dial, build binding, `BalanceOf`; every
failure is returned to the caller. -/
def GetBalance (env : ManagerEnv) (addr : String) : Except String Int :=
  match env.dial with
  | .error e => .error ("Dial err:" ++ e)
  | .ok _ =>
    match env.newAbi with
    | .error e => .error ("NewAbi err:" ++ e)
    | .ok _ => env.balanceOf addr

/-- `Manager.CheckMessage(tx)`: three chained lookups, each failure
returned as-is; if the receipt exit code is `0` publish a transfer-watch
event built from the message, and return `nil` whatever the exit code
was. Result paired with the list of events published on the bus. -/
def CheckMessage (env : ManagerEnv) (tx : String) :
    Except String Unit × List FvmTransferWatch :=
  match env.ethGetMessageCid tx with
  | .error e => (.error e, [])
  | .ok cid =>
    match env.chainGetMessage cid with
    | .error e => (.error e, [])
    | .ok msg =>
      match env.stateSearchMsg cid with
      | .error e => (.error e, [])
      | .ok info =>
        if info.exitCode = 0 then
          (.ok (), [⟨tx, msg.fromAddr, msg.toAddr, goInt64 msg.value⟩])
        else
          (.ok (), [])

/-- `types.FvmTransferReq` as consumed in `subscribeEvents` (fields used:
`ID`, `To`, `Value`; `Value` is the string handed to `Mint`). -/
structure FvmTransferReq where
  id : String
  toAddr : String
  value : String
deriving Repr, DecidableEq

/-- `types.FvmTransferRep` as published in `subscribeEvents`
(`ID`, `TxHash`, `Msg`). -/
structure FvmTransferRep where
  id : String
  txHash : String
  msg : String
deriving Repr, DecidableEq

/-- The body of `subscribeEvents`' loop for one transfer-request event:
call `Mint(tr.To, tr.Value)` synchronously (on failure Go's `Mint`
returns the empty hash), then publish exactly one response with the
request's `ID`, the hash and the error message (empty when no error).
Returns the list of responses published on the response topic. -/
def subscribeStep (env : ManagerEnv) (req : FvmTransferReq) :
    List FvmTransferRep :=
  match (Mint env req.toAddr req.value).1 with
  | .ok hash => [⟨req.id, hash, ""⟩]
  | .error e => [⟨req.id, "", e⟩]

/-- `ecs20140526.CreateInstanceRequest` as populated by
`aliyun.CreateInstance` (string/bool/int fields that function sets). -/
structure CreateInstanceRequest where
  regionId : String
  instanceType : String
  dryRun : Bool
  imageId : String
  securityGroupId : String
  instanceChargeType : String
  periodUnit : String
  period : Int
  internetMaxBandwidthOut : Int
  internetMaxBandwidthIn : Int
  systemDiskSize : Int
deriving Repr, DecidableEq

/-- `ecs20140526.RunInstancesRequest` as populated by
`aliyun.RunInstances`. -/
structure RunInstancesRequest where
  regionId : String
  instanceType : String
  dryRun : Bool
  imageId : String
  securityGroupId : String
  instanceChargeType : String
  periodUnit : String
  period : Int
  password : String
  internetMaxBandwidthOut : Int
  internetMaxBandwidthIn : Int
deriving Repr, DecidableEq

/-- `types.CreateInstanceResponse` fields filled by the aliyun wrapper
(`TradePrice` is a `float32` in the source). -/
structure CreateInstanceResponse where
  instanceID : String
  orderId : String
  requestId : String
  tradePrice : Float

/-- Environment for the aliyun wrapper: `newClient` (keyed by region and
credentials) and the two ECS calls. The SDK's response-body extraction
and the `tea.Recover` panic-to-error wrapping are collapsed into the
call's `Except` result. -/
structure AliyunEnv where
  newClient : String → String → String → Except String Unit
  createInstanceWithOptions :
    CreateInstanceRequest → Except String CreateInstanceResponse
  runInstancesWithOptions :
    RunInstancesRequest → Except String CreateInstanceResponse

/-- The request literal `aliyun.CreateInstance` builds: the caller's
`dryRun` argument is passed through, charge type is `"PrePaid"`,
bandwidth 1/1, system disk 20. -/
def createInstanceRequest (regionID instanceType : String) (dryRun : Bool)
    (imageID securityGroupID periodUnit : String) (period : Int) :
    CreateInstanceRequest :=
  { regionId := regionID
    instanceType := instanceType
    dryRun := dryRun
    imageId := imageID
    securityGroupId := securityGroupID
    instanceChargeType := "PrePaid"
    periodUnit := periodUnit
    period := period
    internetMaxBandwidthOut := 1
    internetMaxBandwidthIn := 1
    systemDiskSize := 20 }

/-- The request literal `aliyun.RunInstances` builds: `DryRun` is the
constant `tea.Bool(true)`, not a parameter. -/
def runInstancesRequest (regionID instanceType imageID password
    securityGroupID periodUnit : String) (period : Int) :
    RunInstancesRequest :=
  { regionId := regionID
    instanceType := instanceType
    dryRun := true
    imageId := imageID
    securityGroupId := securityGroupID
    instanceChargeType := "PrePaid"
    periodUnit := periodUnit
    period := period
    password := password
    internetMaxBandwidthOut := 1
    internetMaxBandwidthIn := 1 }

/-- `aliyun.CreateInstance`: create the client, build the request with
the caller's `dryRun`, submit it. Result paired with the list of
requests actually submitted to the ECS endpoint. -/
def CreateInstance (env : AliyunEnv)
    (regionID keyID keySecret instanceType imageID securityGroupID
      periodUnit : String) (period : Int) (dryRun : Bool) :
    Except String CreateInstanceResponse × List CreateInstanceRequest :=
  match env.newClient regionID keyID keySecret with
  | .error e => (.error e, [])
  | .ok _ =>
    let req := createInstanceRequest regionID instanceType dryRun imageID
      securityGroupID periodUnit period
    (env.createInstanceWithOptions req, [req])

/-- `aliyun.RunInstances`: create the client, build the request with
`DryRun` hardcoded to `true`, submit it. Result paired with the list of
requests actually submitted. -/
def RunInstances (env : AliyunEnv)
    (regionID keyID keySecret instanceType imageID password
      securityGroupID periodUnit : String) (period : Int) :
    Except String CreateInstanceResponse × List RunInstancesRequest :=
  match env.newClient regionID keyID keySecret with
  | .error e => (.error e, [])
  | .ok _ =>
    let req := runInstancesRequest regionID instanceType imageID password
      securityGroupID periodUnit period
    (env.runInstancesWithOptions req, [req])

/-- Spec-side formalization (from the claim's words, for comparison with
the embedded `CheckMessage`): all three chain lookups succeed and the
receipt's exit code is 0. -/
def checkMessagePublishesCond (env : ManagerEnv) (tx : String) : Bool :=
  match env.ethGetMessageCid tx with
  | .error _ => false
  | .ok cid =>
    match env.chainGetMessage cid with
    | .error _ => false
    | .ok _ =>
      match env.stateSearchMsg cid with
      | .error _ => false
      | .ok info => info.exitCode == 0

/-- Spec-side formalization: all three chain lookups of `CheckMessage`
succeed (whatever the exit code). -/
def checkMessageLookupsOk (env : ManagerEnv) (tx : String) : Bool :=
  match env.ethGetMessageCid tx with
  | .error _ => false
  | .ok cid =>
    match env.chainGetMessage cid with
    | .error _ => false
    | .ok _ =>
      match env.stateSearchMsg cid with
      | .error _ => false
      | .ok _ => true

/-- Concrete environment in which every external call succeeds. -/
def envOk : ManagerEnv :=
  { dial := .ok ()
    newAbi := .ok ()
    hexToECDSA := .ok ()
    pubkeyCast := true
    fromAddress := "0xME"
    networkID := .ok 314
    abiMint := fun _ => .ok ⟨"0xMINTHASH"⟩
    abiTransfer := fun _ => .ok ⟨"0xTRANSFERHASH"⟩
    balanceOf := fun _ => .ok 42
    chainHead := .ok 100
    ethGetMessageCid := fun _ => .ok "cid1"
    chainGetMessage := fun _ => .ok ⟨"0xF", "0xT", 7⟩
    stateSearchMsg := fun _ => .ok ⟨10, 0, 5⟩ }

/-- Concrete environment in which every external call fails. -/
def envBad : ManagerEnv :=
  { dial := .error "boom"
    newAbi := .error "boom"
    hexToECDSA := .error "boom"
    pubkeyCast := true
    fromAddress := "0xME"
    networkID := .error "boom"
    abiMint := fun _ => .error "boom"
    abiTransfer := fun _ => .error "boom"
    balanceOf := fun _ => .error "boom"
    chainHead := .error "ConnectionError"
    ethGetMessageCid := fun _ => .error "NotFound"
    chainGetMessage := fun _ => .error "NotFound"
    stateSearchMsg := fun _ => .error "NotFound" }

/-- Concrete environment whose three `CheckMessage` lookups succeed but
whose receipt carries a nonzero exit code (a failed on-chain message). -/
def envExitFail : ManagerEnv :=
  { envOk with stateSearchMsg := fun _ => .ok ⟨10, 1, 5⟩ }

/-- Concrete environment whose early steps (dial, ABI, key, chain id,
first `CheckMessage` lookup) succeed but whose balance query,
transaction submissions and message lookup fail — the late failure
points of each Manager operation. -/
def envPartFail : ManagerEnv :=
  { envOk with
    balanceOf := fun _ => .error "BalanceOfErr"
    abiMint := fun _ => .error "SubmitErr"
    abiTransfer := fun _ => .error "SubmitErr"
    chainGetMessage := fun _ => .error "MsgErr" }

/-- A raw transfer whose originating block was reorganized away. -/
def trRemoved : AbiTransfer := ⟨"0xAAA", "0xBBB", 100, "0xTX1", 7, true⟩

/-- A live raw transfer whose value `2 ^ 63` does not fit in `int64`. -/
def tr63 : AbiTransfer := ⟨"0xAAA", "0xBBB", 2 ^ 63, "0xTX63", 9, false⟩

/-- A live raw transfer whose value `2 ^ 64` truncates to `0` in `int64`. -/
def tr64 : AbiTransfer := ⟨"0xCCC", "0xDDD", 2 ^ 64, "0xTX64", 11, false⟩

/-- A live raw transfer with a small value. -/
def trSmall : AbiTransfer := ⟨"0xAAA", "0xBBB", 100, "0xTXS", 3, false⟩

/-- A concrete transfer-request event. -/
def req0 : FvmTransferReq := ⟨"req-1", "0xDEST", "5"⟩

/-- Values in `[0, 2 ^ 63)` survive the Go `Int64()` conversion. -/
lemma goInt64_eq_of_fit (n : Int) (h0 : 0 ≤ n) (h1 : n < 2 ^ 63) :
    goInt64 n = n := by
  have hb : n < 2 ^ 64 := lt_trans h1 (by norm_num)
  simp only [goInt64, Int.emod_eq_of_lt h0 hb]
  exact if_pos h1

/-- C1: the claim says a raw transfer with `removed == true` makes the
watcher publish a compensating retraction event for the same transfer id
on the transfer-watch topic. It is false: on the concrete removed
transfer `trRemoved`, the event loop publishes nothing at all — there is
no event on the topic, let alone one carrying `trRemoved`'s id. -/
theorem c1_retraction_counterexample :
    trRemoved.rawRemoved = true ∧
    (watchLoop [.transfer trRemoved]).1 = [] ∧
    ¬ ∃ ev ∈ (watchLoop [LoopEvent.transfer trRemoved]).1,
        ev.id = trRemoved.rawTxHash := by
  refine ⟨rfl, rfl, ?_⟩
  simp [watchLoop, watchPublish, trRemoved]

/-- C1 (amended): for every inbound raw transfer with `removed == true`,
the watcher publishes nothing: the `if !tr.Raw.Removed` guard silently
drops the transfer, and the loop continues exactly as if the event had
not arrived. -/
theorem c1_removed_publishes_nothing (tr : AbiTransfer)
    (rest : List LoopEvent) (h : tr.rawRemoved = true) :
    watchLoop (.transfer tr :: rest) = watchLoop rest := by
  simp [watchLoop, watchPublish, h]

/-- C1 witness: the amended theorem applied to the concrete removed
transfer `trRemoved`. -/
theorem c1_removed_publishes_nothing_witness :
    trRemoved.rawRemoved = true ∧
    watchLoop [.transfer trRemoved] = watchLoop [] :=
  ⟨rfl, c1_removed_publishes_nothing trRemoved [] rfl⟩

/-- C2: the claim says the event loop never terminates on its own, even
under consecutive failures of the resubscription call. It is false: a
single subscription-stream error whose `WatchTransfer` resubscription
call fails makes `watchTransactions` return
`xerrors.Errorf("Transfer err:%s", ...)`, terminating the loop. -/
theorem c2_loop_termination_counterexample :
    (watchLoop [.subErr (some "ConnectionError")
        (.error "ConnectionError")]).2
      = some "Transfer err:ConnectionError" := by
  decide

/-- C2 (amended): the loop survives stream errors whose resubscription
call succeeds, but it is still running after a finite input trace if and
only if no trace element is a stream error with a failing resubscription;
such an element makes the loop return an error (only the initial
dial/subscribe failures and a failed resubscription stop it — not only
process shutdown). -/
theorem c2_loop_runs_iff_no_fatal (t : List LoopEvent) :
    (watchLoop t).2.isNone = t.all (fun e => !fatalEvent e) := by
  induction t with
  | nil => rfl
  | cons e rest ih =>
    cases e with
    | subErr o r =>
      cases o with
      | none => simpa [watchLoop, fatalEvent] using ih
      | some s =>
        cases r with
        | ok u => simpa [watchLoop, fatalEvent] using ih
        | error s2 => simp [watchLoop, fatalEvent]
    | transfer tr => simpa [watchLoop, fatalEvent] using ih

/-- C4: evaluation at the failing input. The raw transfer `tr64` carries
value `2 ^ 64`, but the event the watcher publishes carries
`tr.Value.Int64() = 0`: the token amount was converted to a bounded
machine integer on its way onto the bus, destroying the amount, while
`basis.go` declares the event's `Value` as a decimal string. -/
theorem c4_value_int64_truncation :
    tr64.value = 2 ^ 64 ∧
    (watchLoop [.transfer tr64]).1 = [⟨"0xTX64", "0xCCC", "0xDDD", 0⟩] := by
  exact ⟨rfl, by decide⟩

/-- C7: the claim says the published event's `value` equals the raw
transfer's value. It is false for values outside `int64`: the live
transfer `tr63` has value `2 ^ 63`, but the published event carries
`-(2 ^ 63)` — no published event has the raw value. -/
theorem c7_value_truncation_counterexample :
    tr63.rawRemoved = false ∧
    (watchLoop [.transfer tr63]).1
      = [⟨"0xTX63", "0xAAA", "0xBBB", -(2 ^ 63)⟩] ∧
    ¬ ∃ ev ∈ (watchLoop [LoopEvent.transfer tr63]).1,
        ev.value = tr63.value := by
  refine ⟨rfl, by decide, by decide⟩

/-- C7 (amended): for every inbound raw transfer with `removed == false`
whose value fits in `int64` (`0 ≤ v < 2 ^ 63`), the watcher publishes on
the transfer-watch topic exactly one normalized event whose id is the
transaction hash and whose from, to and value equal the raw transfer's
fields; for larger values the published value is the two's-complement
`int64` reinterpretation, not the raw value. -/
theorem c7_normalized_event (tr : AbiTransfer) (rest : List LoopEvent)
    (h : tr.rawRemoved = false) (h0 : 0 ≤ tr.value)
    (h1 : tr.value < 2 ^ 63) :
    (watchLoop (.transfer tr :: rest)).1 =
      ⟨tr.rawTxHash, tr.fromAddr, tr.toAddr, tr.value⟩
        :: (watchLoop rest).1 := by
  simp [watchLoop, watchPublish, h, goInt64_eq_of_fit tr.value h0 h1]

/-- C7 witness: the amended theorem applied to the concrete live
transfer `trSmall` of value 100. -/
theorem c7_normalized_event_witness :
    (watchLoop [.transfer trSmall]).1
      = [⟨"0xTXS", "0xAAA", "0xBBB", 100⟩] :=
  c7_normalized_event trSmall [] rfl (by decide) (by decide)

/-- Once dial, ABI construction, key parsing and chain-id lookup
succeed, `Mint` submits exactly one contract call: destination and
parsed amount unchanged, signing context built from the client-reported
chain id — whatever the node answers. -/
lemma Mint_submitted_calls (env : ManagerEnv) (toAddr valueStr : String)
    (cid : Int) (h1 : env.dial = .ok ()) (h2 : env.newAbi = .ok ())
    (h3 : env.hexToECDSA = .ok ()) (h4 : env.pubkeyCast = true)
    (h5 : env.networkID = .ok cid) :
    (Mint env toAddr valueStr).2 =
      [⟨⟨cid, env.fromAddress⟩, toAddr, goSetString10 valueStr⟩] := by
  simp only [Mint, h1, h2, h3, h4, h5, Bool.not_true]
  cases env.abiMint ⟨⟨cid, env.fromAddress⟩, toAddr, goSetString10 valueStr⟩ <;>
    rfl

/-- `Transfer` analogue of `Mint_submitted_calls`. -/
lemma Transfer_submitted_calls (env : ManagerEnv)
    (toAddr valueStr : String) (cid : Int) (h1 : env.dial = .ok ())
    (h2 : env.newAbi = .ok ()) (h3 : env.hexToECDSA = .ok ())
    (h4 : env.pubkeyCast = true) (h5 : env.networkID = .ok cid) :
    (Transfer env toAddr valueStr).2 =
      [⟨⟨cid, env.fromAddress⟩, toAddr, goSetString10 valueStr⟩] := by
  simp only [Transfer, h1, h2, h3, h4, h5, Bool.not_true]
  cases env.abiTransfer ⟨⟨cid, env.fromAddress⟩, toAddr, goSetString10 valueStr⟩ <;>
    rfl

/-- C3: the claim says a `Mint`/`Transfer` call with amount `"0"` fails
before a chain transaction is built. It is false: in the all-success
environment `envOk` both calls succeed, and each builds and submits a
zero-value contract call. -/
theorem c3_zero_amount_counterexample :
    (Mint envOk "0xDEST" "0").1 = .ok "0xMINTHASH" ∧
    (Mint envOk "0xDEST" "0").2 = [⟨⟨314, "0xME"⟩, "0xDEST", 0⟩] ∧
    (Transfer envOk "0xDEST" "0").1 = .ok "0xTRANSFERHASH" ∧
    (Transfer envOk "0xDEST" "0").2 = [⟨⟨314, "0xME"⟩, "0xDEST", 0⟩] :=
  ⟨rfl, rfl, rfl, rfl⟩

/-- C3 (amended): `Mint` and `Transfer` perform no amount validation: a
call with amount `"0"` is not rejected — once the dial, ABI, key and
chain-id steps succeed, exactly one zero-value contract call is built
and submitted, whatever the node then answers. -/
theorem c3_zero_amount_not_rejected (env : ManagerEnv) (toAddr : String)
    (cid : Int) (h1 : env.dial = .ok ()) (h2 : env.newAbi = .ok ())
    (h3 : env.hexToECDSA = .ok ()) (h4 : env.pubkeyCast = true)
    (h5 : env.networkID = .ok cid) :
    (Mint env toAddr "0").2 = [⟨⟨cid, env.fromAddress⟩, toAddr, 0⟩] ∧
    (Transfer env toAddr "0").2 = [⟨⟨cid, env.fromAddress⟩, toAddr, 0⟩] :=
  ⟨Mint_submitted_calls env toAddr "0" cid h1 h2 h3 h4 h5,
   Transfer_submitted_calls env toAddr "0" cid h1 h2 h3 h4 h5⟩

/-- C3 witness: the amended theorem applied to the all-success
environment `envOk`. -/
theorem c3_zero_amount_not_rejected_witness :
    (Mint envOk "0xDEST" "0").2 = [⟨⟨314, envOk.fromAddress⟩, "0xDEST", 0⟩] ∧
    (Transfer envOk "0xDEST" "0").2
      = [⟨⟨314, envOk.fromAddress⟩, "0xDEST", 0⟩] :=
  c3_zero_amount_not_rejected envOk "0xDEST" 314 rfl rfl rfl rfl rfl

/-- C5: the claim says every ledger-client operation exposed by the
Manager propagates failures as an explicit error result, never
substituting a default. It is false for the chain-head lookup: in
`envBad` the `ChainHead` call fails, yet `GetHeight` returns the default
height `0` — its signature carries no error at all. -/
theorem c5_getheight_default_counterexample :
    envBad.chainHead = .error "ConnectionError" ∧ GetHeight envBad = 0 :=
  ⟨rfl, rfl⟩

/-- C5 (amended): the balance query, message/receipt lookups and
transaction submission (`GetBalance`, `CheckMessage`, `Mint`,
`Transfer`) propagate a failure at any of their external calls to their
caller as an explicit error result — for `GetBalance` the result is the
`BalanceOf` outcome itself once dial and ABI succeed, so no default is
ever substituted — with no internal retry; the chain-head lookup
`GetHeight` does not: it swallows the `ChainHead` failure and returns
the default height `0` (its signature carries no error at all). -/
theorem c5_error_propagation (env : ManagerEnv)
    (addr tx toAddr valueStr : String) :
    (∀ e, env.chainHead = .error e → GetHeight env = 0) ∧
    ((∀ e, env.dial = .error e →
        GetBalance env addr = .error ("Dial err:" ++ e)) ∧
     (env.dial = .ok () → ∀ e, env.newAbi = .error e →
        GetBalance env addr = .error ("NewAbi err:" ++ e)) ∧
     (env.dial = .ok () → env.newAbi = .ok () →
        GetBalance env addr = env.balanceOf addr)) ∧
    ((∀ e, env.dial = .error e →
        (Mint env toAddr valueStr).1 = .error ("Dial err:" ++ e)) ∧
     (env.dial = .ok () → ∀ e, env.newAbi = .error e →
        (Mint env toAddr valueStr).1 = .error ("NewAbi err:" ++ e)) ∧
     (env.dial = .ok () → env.newAbi = .ok () → ∀ e,
        env.hexToECDSA = .error e →
        (Mint env toAddr valueStr).1 = .error ("HexToECDSA err:" ++ e)) ∧
     (env.dial = .ok () → env.newAbi = .ok () → env.hexToECDSA = .ok () →
        env.pubkeyCast = true → ∀ e, env.networkID = .error e →
        (Mint env toAddr valueStr).1 = .error ("NetworkID err:" ++ e)) ∧
     (env.dial = .ok () → env.newAbi = .ok () → env.hexToECDSA = .ok () →
        env.pubkeyCast = true → ∀ cid, env.networkID = .ok cid → ∀ e,
        env.abiMint ⟨⟨cid, env.fromAddress⟩, toAddr,
          goSetString10 valueStr⟩ = .error e →
        (Mint env toAddr valueStr).1 = .error ("Mint err:" ++ e))) ∧
    ((∀ e, env.dial = .error e →
        (Transfer env toAddr valueStr).1 = .error ("Dial err:" ++ e)) ∧
     (env.dial = .ok () → ∀ e, env.hexToECDSA = .error e →
        (Transfer env toAddr valueStr).1 =
          .error ("HexToECDSA err:" ++ e)) ∧
     (env.dial = .ok () → env.hexToECDSA = .ok () →
        env.pubkeyCast = true → ∀ e, env.newAbi = .error e →
        (Transfer env toAddr valueStr).1 = .error ("NewAbi err:" ++ e)) ∧
     (env.dial = .ok () → env.hexToECDSA = .ok () →
        env.pubkeyCast = true → env.newAbi = .ok () → ∀ e,
        env.networkID = .error e →
        (Transfer env toAddr valueStr).1 =
          .error ("NetworkID err:" ++ e)) ∧
     (env.dial = .ok () → env.hexToECDSA = .ok () →
        env.pubkeyCast = true → env.newAbi = .ok () → ∀ cid,
        env.networkID = .ok cid → ∀ e,
        env.abiTransfer ⟨⟨cid, env.fromAddress⟩, toAddr,
          goSetString10 valueStr⟩ = .error e →
        (Transfer env toAddr valueStr).1 =
          .error ("Transfer err:" ++ e))) ∧
    ((∀ e, env.ethGetMessageCid tx = .error e →
        (CheckMessage env tx).1 = .error e) ∧
     (∀ cid, env.ethGetMessageCid tx = .ok cid → ∀ e,
        env.chainGetMessage cid = .error e →
        (CheckMessage env tx).1 = .error e) ∧
     (∀ cid msg, env.ethGetMessageCid tx = .ok cid →
        env.chainGetMessage cid = .ok msg → ∀ e,
        env.stateSearchMsg cid = .error e →
        (CheckMessage env tx).1 = .error e)) := by
  refine ⟨?_, ⟨?_, ?_, ?_⟩, ⟨?_, ?_, ?_, ?_, ?_⟩, ⟨?_, ?_, ?_, ?_, ?_⟩,
    ⟨?_, ?_, ?_⟩⟩ <;>
    · intros
      simp [GetHeight, GetBalance, Mint, Transfer, CheckMessage, *]

/-- C5 witness: the amended theorem applied at concrete environments
covering both the early and the late failure points — `envBad` fails at
dial/chain-head, `envPartFail` fails at the balance query, the two
transaction submissions and the message lookup. -/
theorem c5_error_propagation_witness :
    GetHeight envBad = 0 ∧
    GetBalance envBad "0xA" = .error ("Dial err:" ++ "boom") ∧
    GetBalance envPartFail "0xA" = .error "BalanceOfErr" ∧
    (Mint envPartFail "0xDEST" "5").1 = .error ("Mint err:" ++ "SubmitErr") ∧
    (Transfer envPartFail "0xDEST" "5").1 =
      .error ("Transfer err:" ++ "SubmitErr") ∧
    (CheckMessage envPartFail "0xTX").1 = .error "MsgErr" := by
  obtain ⟨-, ⟨-, -, hB3⟩, ⟨-, -, -, -, hM5⟩, ⟨-, -, -, -, hT5⟩,
      ⟨-, hC2, -⟩⟩ :=
    c5_error_propagation envPartFail "0xA" "0xTX" "0xDEST" "5"
  obtain ⟨gA, ⟨gB1, -, -⟩, -, -, -⟩ :=
    c5_error_propagation envBad "0xA" "0xTX" "0xDEST" "5"
  exact ⟨gA "ConnectionError" rfl,
    gB1 "boom" rfl,
    hB3 rfl rfl,
    hM5 rfl rfl rfl rfl 314 rfl "SubmitErr" rfl,
    hT5 rfl rfl rfl rfl 314 rfl "SubmitErr" rfl,
    hC2 "cid1" rfl "MsgErr" rfl⟩

/-- C6: for every transfer-request event consumed from the bus, the
subscriber invokes `Mint` synchronously and publishes exactly one
response on the response topic carrying the request's `ID` — the
transaction hash and empty message when `Mint` succeeds, the empty hash
and the error message when it fails. -/
theorem c6_transfer_request_response (env : ManagerEnv)
    (req : FvmTransferReq) :
    (∀ h, (Mint env req.toAddr req.value).1 = .ok h →
      subscribeStep env req = [⟨req.id, h, ""⟩]) ∧
    (∀ e, (Mint env req.toAddr req.value).1 = .error e →
      subscribeStep env req = [⟨req.id, "", e⟩]) := by
  constructor
  · intro h hm
    simp [subscribeStep, hm]
  · intro e hm
    simp [subscribeStep, hm]

/-- C6 witness: the theorem applied to the concrete request `req0` in
the all-success environment `envOk`. -/
theorem c6_transfer_request_response_witness :
    subscribeStep envOk req0 = [⟨"req-1", "0xMINTHASH", ""⟩] :=
  (c6_transfer_request_response envOk req0).1 "0xMINTHASH" rfl

/-- C8: for every successful `Mint` or `Transfer` call, the chain id in
the signing context of the submitted contract call is exactly the one
the connected client reported (`NetworkID`, never a constant), and the
returned string is the hex hash of the submitted transaction — the
environment contains no confirmation input at all, so the hash is
returned independently of any on-chain confirmation. -/
theorem c8_dynamic_chain_id_and_hash (env : ManagerEnv)
    (toAddr valueStr h : String) :
    ((Mint env toAddr valueStr).1 = .ok h →
      ∃ cid tx, env.networkID = .ok cid ∧
        env.abiMint ⟨⟨cid, env.fromAddress⟩, toAddr,
          goSetString10 valueStr⟩ = .ok tx ∧
        h = tx.hashHex ∧
        (Mint env toAddr valueStr).2 =
          [⟨⟨cid, env.fromAddress⟩, toAddr, goSetString10 valueStr⟩]) ∧
    ((Transfer env toAddr valueStr).1 = .ok h →
      ∃ cid tx, env.networkID = .ok cid ∧
        env.abiTransfer ⟨⟨cid, env.fromAddress⟩, toAddr,
          goSetString10 valueStr⟩ = .ok tx ∧
        h = tx.hashHex ∧
        (Transfer env toAddr valueStr).2 =
          [⟨⟨cid, env.fromAddress⟩, toAddr, goSetString10 valueStr⟩]) := by
  constructor
  · cases hd : env.dial with
    | error e => intro hm; simp [Mint, hd] at hm
    | ok u =>
      cases hn : env.newAbi with
      | error e => intro hm; simp [Mint, hd, hn] at hm
      | ok u2 =>
        cases hk : env.hexToECDSA with
        | error e => intro hm; simp [Mint, hd, hn, hk] at hm
        | ok u3 =>
          cases hp : env.pubkeyCast with
          | false => intro hm; simp [Mint, hd, hn, hk, hp] at hm
          | true =>
            cases hcid : env.networkID with
            | error e => intro hm; simp [Mint, hd, hn, hk, hp, hcid] at hm
            | ok cid =>
              cases hab : env.abiMint ⟨⟨cid, env.fromAddress⟩, toAddr,
                  goSetString10 valueStr⟩ with
              | error e =>
                intro hm
                simp [Mint, hd, hn, hk, hp, hcid, hab] at hm
              | ok tx =>
                intro hm
                simp [Mint, hd, hn, hk, hp, hcid, hab] at hm
                exact ⟨cid, tx, by simp [hcid], by simp [hab], hm.symm,
                  by simp [Mint, hd, hn, hk, hp, hcid, hab]⟩
  · cases hd : env.dial with
    | error e => intro hm; simp [Transfer, hd] at hm
    | ok u =>
      cases hk : env.hexToECDSA with
      | error e => intro hm; simp [Transfer, hd, hk] at hm
      | ok u3 =>
        cases hp : env.pubkeyCast with
        | false => intro hm; simp [Transfer, hd, hk, hp] at hm
        | true =>
          cases hn : env.newAbi with
          | error e => intro hm; simp [Transfer, hd, hk, hp, hn] at hm
          | ok u2 =>
            cases hcid : env.networkID with
            | error e => intro hm; simp [Transfer, hd, hk, hp, hn, hcid] at hm
            | ok cid =>
              cases hab : env.abiTransfer ⟨⟨cid, env.fromAddress⟩, toAddr,
                  goSetString10 valueStr⟩ with
              | error e =>
                intro hm
                simp [Transfer, hd, hk, hp, hn, hcid, hab] at hm
              | ok tx =>
                intro hm
                simp [Transfer, hd, hk, hp, hn, hcid, hab] at hm
                exact ⟨cid, tx, by simp [hcid], by simp [hab], hm.symm,
                  by simp [Transfer, hd, hk, hp, hn, hcid, hab]⟩

/-- C8 witness: the `Mint` half applied in the all-success environment
`envOk`, whose client reports chain id 314. -/
theorem c8_dynamic_chain_id_and_hash_witness :
    ∃ cid tx, envOk.networkID = .ok cid ∧
      envOk.abiMint ⟨⟨cid, envOk.fromAddress⟩, "0xDEST",
        goSetString10 "5"⟩ = .ok tx ∧
      "0xMINTHASH" = tx.hashHex ∧
      (Mint envOk "0xDEST" "5").2 =
        [⟨⟨cid, envOk.fromAddress⟩, "0xDEST", goSetString10 "5"⟩] :=
  (c8_dynamic_chain_id_and_hash envOk "0xDEST" "5" "0xMINTHASH").1 rfl

/-- C9: every provisioning request `RunInstances` submits has its
dry-run flag hardcoded to `true` regardless of the arguments — a real
instance-creation request is never submitted — while every request
`CreateInstance` submits carries the caller's `dryRun` argument
unchanged. -/
theorem c9_run_instances_dry_run (env : AliyunEnv)
    (regionID keyID keySecret instanceType imageID password
      securityGroupID periodUnit : String) (period : Int)
    (dryRun : Bool) :
    ((RunInstances env regionID keyID keySecret instanceType imageID
        password securityGroupID periodUnit period).2.all
          fun q => q.dryRun) = true ∧
    ((CreateInstance env regionID keyID keySecret instanceType imageID
        securityGroupID periodUnit period dryRun).2.all
          fun q => q.dryRun == dryRun) = true := by
  constructor
  · cases h : env.newClient regionID keyID keySecret <;>
      simp [RunInstances, h, runInstancesRequest]
  · cases h : env.newClient regionID keyID keySecret <;>
      simp [CreateInstance, h, createInstanceRequest]

/-- C10: `CheckMessage` publishes a transfer-watch event iff all three
chain lookups succeed and the receipt's exit code is 0; and whenever the
three lookups succeed it returns `nil` whatever the exit code was, so
its return value does not distinguish a failed on-chain message from a
successful one. -/
theorem c10_check_message_publish_iff (env : ManagerEnv) (tx : String) :
    ((CheckMessage env tx).2 ≠ [] ↔
      checkMessagePublishesCond env tx = true) ∧
    (checkMessageLookupsOk env tx = true →
      (CheckMessage env tx).1 = .ok ()) := by
  constructor
  · cases h1 : env.ethGetMessageCid tx with
    | error e => simp [CheckMessage, checkMessagePublishesCond, h1]
    | ok cid =>
      cases h2 : env.chainGetMessage cid with
      | error e => simp [CheckMessage, checkMessagePublishesCond, h1, h2]
      | ok msg =>
        cases h3 : env.stateSearchMsg cid with
        | error e =>
          simp [CheckMessage, checkMessagePublishesCond, h1, h2, h3]
        | ok info =>
          by_cases hec : info.exitCode = 0 <;>
            simp [CheckMessage, checkMessagePublishesCond, h1, h2, h3, hec]
  · intro hlk
    cases h1 : env.ethGetMessageCid tx with
    | error e => simp [checkMessageLookupsOk, h1] at hlk
    | ok cid =>
      cases h2 : env.chainGetMessage cid with
      | error e => simp [checkMessageLookupsOk, h1, h2] at hlk
      | ok msg =>
        cases h3 : env.stateSearchMsg cid with
        | error e => simp [checkMessageLookupsOk, h1, h2, h3] at hlk
        | ok info =>
          by_cases hec : info.exitCode = 0 <;>
            simp [CheckMessage, h1, h2, h3, hec]

/-- C10 witness: the theorem applied to `envExitFail`, whose lookups
succeed with exit code 1 — nothing is published, yet the call still
returns `nil`. -/
theorem c10_check_message_publish_iff_witness :
    checkMessageLookupsOk envExitFail "0xTX" = true ∧
    (CheckMessage envExitFail "0xTX").1 = .ok () ∧
    (CheckMessage envExitFail "0xTX").2 = [] :=
  ⟨rfl, (c10_check_message_publish_iff envExitFail "0xTX").2 rfl, rfl⟩

end TitanVps


